import Mathlib

/-!
Verification of the trivy server's DB hot-update worker
(`internal/server/server.go`: `ListenAndServe`'s `withWaitGroup` middleware,
`dbWorker.update`, `dbWorker.hotUpdate`, `updateLastDBUpdatePrometheus`).

Two embeddings are developed:

* a functional embedding of one update cycle (`update`, `hotUpdate`,
  `updateLastDBUpdatePrometheus`), where each external call's outcome is an
  `Except String` value supplied by an environment record, and the cycle
  returns its result, the final world state and a trace of the effects it
  performed, in order;
* a small-step interleaving model of the admission gate (the two
  `sync.WaitGroup`s shared between the request middleware and the worker),
  used for the concurrency claims.

Timestamps are `Int` (Go stores `float64(time.Now().Unix())`; Unix seconds
are integral and exactly representable, so `Int` is a faithful carrier).
Go error values are modelled by their message strings; `xerrors.Errorf("%w", e)`
preserves the message, `xerrors.Errorf("msg: %w", e)` prepends `"msg: "`,
and `xerrors.Errorf("msg")` is the bare message.
-/

/-- State of the `prometheus.GaugeVec` labelled by `action`: the two samples
the server ever writes, keyed `last_db_update_attempt` and `last_db_update`.
`none` means the label has never been set. -/
structure GaugeState where
  lastDBUpdateAttempt : Option Int
  lastDBUpdate : Option Int
  deriving Repr, DecidableEq

/-- Embedding of `updateLastDBUpdatePrometheus(gauge, time, onlyDBAttempt)`.
The Go function mutates the gauge in place and returns `error`; here the
updated gauge is returned on success. A `nil` gauge (`none`) yields the
explicit error, recording nothing. -/
def updateLastDBUpdatePrometheus : Option GaugeState → Int → Bool → Except String GaugeState
  | none, _, _ => .error "Prometheus gauge found to be nil"
  | some g, time, onlyDBAttempt =>
      if onlyDBAttempt then
        .ok { g with lastDBUpdateAttempt := some time }
      else
        .ok { g with lastDBUpdate := some time }

/-- Outcomes of the external calls one cycle of `dbWorker.update` may make,
in the order the code can reach them, plus the two clock reads.
Each `Except` is the value the corresponding call would return if reached. -/
structure Env where
  tempDirRes : Except String Unit
  needsUpdateRes : Except String Bool
  downloadRes : Except String (List Nat)
  closeRes : Except String Unit
  copyRes : Except String Unit
  updateMetadataRes : Except String Unit
  dbInitRes : Except String Unit
  now1 : Int
  now2 : Int
  deriving Repr

/-- Observable process/filesystem state touched by one update cycle. -/
structure World where
  dbUpdateWg : Nat
  liveFile : List Nat
  dbOpen : Bool
  tmpDirs : Nat
  gauge : Option GaugeState
  deriving Repr, DecidableEq

/-- Effects a cycle performs, recorded in program order. -/
inductive Event where
  | recordAttempt (t : Int)
  | recordSuccess (t : Int)
  | needsUpdateCheck
  | createTempDir
  | download
  | removeTempDir
  | gateAdd
  | gateDone
  | waitDrain
  | dbClose
  | copyFile
  | updateMetadata
  | dbInit
  deriving Repr, DecidableEq

/-- Result of running a cycle: the returned `error` value, the final world,
and the trace of performed effects. -/
structure CycleOut where
  res : Except String Unit
  world : World
  trace : List Event
  deriving Repr

/-- Modelled from the spec: `utils.CopyFile` is not under `src/` (only its
caller is), and the spec requires the replace to be "an all-or-nothing
replace from the caller's point of view — partial writes must not be
observable by a subsequent open". Accordingly the live file either becomes
exactly the staged content (success) or is left exactly as it was (failure);
no partial state exists. -/
def copyFileReplace (res : Except String Unit) (staged _live : List Nat) :
    Except String (List Nat) :=
  match res with
  | .error e => .error e
  | .ok _ => .ok staged

/-- Embedding of `dbWorker.hotUpdate(ctx, cacheDir, dbUpdateWg, requestWg)`.
The two `defer`s (`os.RemoveAll(tmpDir)`, registered first, and
`dbUpdateWg.Done()`, registered second) run in LIFO order on every return
that follows their registration, so each return point below applies
`Done` and then `RemoveAll` exactly as Go does. `requestWg.Wait()` is a
blocking read of the other wait group; in this sequential embedding it is
recorded as the `waitDrain` effect. -/
def hotUpdate (env : Env) (w : World) : CycleOut :=
  match env.tempDirRes with
  | .error e =>
      { res := .error ("failed to create a temp dir: " ++ e)
        world := w
        trace := [.createTempDir] }
  | .ok _ =>
    let w1 : World := { w with tmpDirs := w.tmpDirs + 1 }
    match env.downloadRes with
    | .error e =>
        { res := .error ("failed to download vulnerability DB: " ++ e)
          world := { w1 with tmpDirs := w1.tmpDirs - 1 }
          trace := [.createTempDir, .download, .removeTempDir] }
    | .ok staged =>
      let w2 : World := { w1 with dbUpdateWg := w1.dbUpdateWg + 1 }
      let release : World → World := fun w =>
        { w with dbUpdateWg := w.dbUpdateWg - 1, tmpDirs := w.tmpDirs - 1 }
      let pre : List Event := [.createTempDir, .download, .gateAdd, .waitDrain]
      match env.closeRes with
      | .error e =>
          { res := .error ("failed to close DB: " ++ e)
            world := release w2
            trace := pre ++ [.dbClose, .gateDone, .removeTempDir] }
      | .ok _ =>
        let w3 : World := { w2 with dbOpen := false }
        match copyFileReplace env.copyRes staged w3.liveFile with
        | .error e =>
            { res := .error ("failed to copy the database file: " ++ e)
              world := release w3
              trace := pre ++ [.dbClose, .copyFile, .gateDone, .removeTempDir] }
        | .ok newLive =>
          let w4 : World := { w3 with liveFile := newLive }
          match env.updateMetadataRes with
          | .error e =>
              { res := .error ("unable to update database metadata: " ++ e)
                world := release w4
                trace := pre ++ [.dbClose, .copyFile, .updateMetadata, .gateDone,
                                 .removeTempDir] }
          | .ok _ =>
            match env.dbInitRes with
            | .error e =>
                { res := .error ("failed to open DB: " ++ e)
                  world := release w4
                  trace := pre ++ [.dbClose, .copyFile, .updateMetadata, .dbInit,
                                   .gateDone, .removeTempDir] }
            | .ok _ =>
                { res := .ok ()
                  world := release { w4 with dbOpen := true }
                  trace := pre ++ [.dbClose, .copyFile, .updateMetadata, .dbInit,
                                   .gateDone, .removeTempDir] }

/-- Embedding of `dbWorker.update(ctx, appVersion, cacheDir, dbUpdateWg,
requestWg, gaugeMetric)`: records the attempt sample first (propagating a
nil-gauge error via `xerrors.Errorf("%w", err)`), consults `NeedsUpdate`,
returns `nil` when no update is needed, otherwise runs `hotUpdate` and on
its success records the success sample. -/
def update (env : Env) (w : World) : CycleOut :=
  match updateLastDBUpdatePrometheus w.gauge env.now1 true with
  | .error e => { res := .error e, world := w, trace := [] }
  | .ok g1 =>
    let w1 : World := { w with gauge := some g1 }
    match env.needsUpdateRes with
    | .error _ =>
        { res := .error "failed to check if db needs an update"
          world := w1
          trace := [.recordAttempt env.now1, .needsUpdateCheck] }
    | .ok false =>
        { res := .ok ()
          world := w1
          trace := [.recordAttempt env.now1, .needsUpdateCheck] }
    | .ok true =>
      let hu := hotUpdate env w1
      match hu.res with
      | .error _ =>
          { res := .error "failed DB hot update"
            world := hu.world
            trace := [.recordAttempt env.now1, .needsUpdateCheck] ++ hu.trace }
      | .ok _ =>
        match updateLastDBUpdatePrometheus hu.world.gauge env.now2 false with
        | .error e =>
            { res := .error e
              world := hu.world
              trace := [.recordAttempt env.now1, .needsUpdateCheck] ++ hu.trace }
        | .ok g2 =>
            { res := .ok ()
              world := { hu.world with gauge := some g2 }
              trace := [.recordAttempt env.now1, .needsUpdateCheck] ++ hu.trace
                         ++ [.recordSuccess env.now2] }

/-!
Interleaving model of the admission gate. Each inbound request runs the
`withWaitGroup` wrapper

```
dbUpdateWg.Wait()          -- pc 0 -> 1 : enabled only when dbUpdateWg = 0
requestWg.Add(1)           -- pc 1 -> 2
base.ServeHTTP(w, r)       -- pc 2 -> 3 : handler body (database-reading)
requestWg.Done()           -- pc 3 -> 4 : deferred, runs on return and panic
```

and the worker's hot-swap section runs

```
dbUpdateWg.Add(1)          -- pc 0 -> 1
requestWg.Wait()           -- pc 1 -> 2 : enabled only when requestWg = 0
close / copy / reopen      -- pc 2 -> 3 : the file-replace steps
dbUpdateWg.Done()          -- pc 3 -> 4 : deferred
```

Threads are scheduled by an arbitrary list of thread identifiers; a step of
a thread whose next operation is blocked (a `Wait` on a nonzero counter)
leaves the configuration unchanged.
-/

/-- Thread identifier: one of the request threads, or the update worker. -/
inductive Tid where
  | req (i : Nat)
  | upd
  deriving Repr, DecidableEq

/-- Configuration of the gate: the two wait-group counters, the program
counter of every request thread, and the worker's program counter. -/
structure GateConfig where
  dbUpdateWg : Nat
  requestWg : Nat
  reqPCs : List Nat
  updPC : Nat
  deriving Repr, DecidableEq

/-- Initial configuration: both counters zero, `n` requests and the worker
all at their first instruction. -/
def gateInit (n : Nat) : GateConfig :=
  { dbUpdateWg := 0, requestWg := 0, reqPCs := List.replicate n 0, updPC := 0 }

/-- One step of one thread. `outcome i` tells whether request `i`'s handler
body returns normally (`true`) or fails/panics (`false`); the deferred
`requestWg.Done()` runs in either case, so both branches continue to the
same program counter — which is exactly the accounting property under
study. -/
def gateStep (outcome : Nat → Bool) (c : GateConfig) (t : Tid) : GateConfig :=
  match t with
  | .upd =>
    match c.updPC with
    | 0 => { c with dbUpdateWg := c.dbUpdateWg + 1, updPC := 1 }
    | 1 => if c.requestWg = 0 then { c with updPC := 2 } else c
    | 2 => { c with updPC := 3 }
    | 3 => { c with dbUpdateWg := c.dbUpdateWg - 1, updPC := 4 }
    | _ => c
  | .req i =>
    match c.reqPCs[i]? with
    | none => c
    | some pc =>
      match pc with
      | 0 => if c.dbUpdateWg = 0 then { c with reqPCs := c.reqPCs.set i 1 } else c
      | 1 => { c with reqPCs := c.reqPCs.set i 2, requestWg := c.requestWg + 1 }
      | 2 =>
          match outcome i with
          | true => { c with reqPCs := c.reqPCs.set i 3 }
          | false => { c with reqPCs := c.reqPCs.set i 3 }
      | 3 => { c with reqPCs := c.reqPCs.set i 4, requestWg := c.requestWg - 1 }
      | _ => c

/-- Run a schedule from a configuration. -/
def gateRun (outcome : Nat → Bool) (c : GateConfig) (sched : List Tid) : GateConfig :=
  sched.foldl (gateStep outcome) c

/-- A configuration violates mutual exclusion when the worker is inside the
file-replace steps (program counter 2) while some request thread is inside
its handler body (program counter 2). -/
def mutexViolated (c : GateConfig) : Prop :=
  c.updPC = 2 ∧ 2 ∈ c.reqPCs

instance (c : GateConfig) : Decidable (mutexViolated c) := by
  unfold mutexViolated; infer_instance

/-- The mutual-exclusion property the spec requires of the gate: no
interleaving of `n` requests with the worker reaches a configuration where
a handler body runs concurrently with the file-replace steps. -/
def admissionGateMutex (n : Nat) : Prop :=
  ∀ (outcome : Nat → Bool) (sched : List Tid),
    ¬ mutexViolated (gateRun outcome (gateInit n) sched)

/-- The racing schedule: request 0 passes `dbUpdateWg.Wait()` while the gate
is still open, the worker then marks the update and passes `requestWg.Wait()`
(zero in flight), and request 0 then registers and enters its handler body
while the worker is in the file-replace steps. -/
def raceSched : List Tid := [.req 0, .upd, .upd, .req 0]

/-- Number of request threads currently in flight: past `requestWg.Add(1)`
(program counter 2 or 3) and not yet past `requestWg.Done()`. -/
def inflight : List Nat → Nat
  | [] => 0
  | pc :: rest => (if pc = 2 ∨ pc = 3 then 1 else 0) + inflight rest

/-- A configuration is balanced when the `requestWg` counter equals the
number of in-flight request threads. -/
def gateBalanced (c : GateConfig) : Prop :=
  c.requestWg = inflight c.reqPCs

lemma inflight_set (l : List Nat) (i v pc : Nat) (h : l[i]? = some pc) :
    inflight (l.set i v) + (if pc = 2 ∨ pc = 3 then 1 else 0)
      = inflight l + (if v = 2 ∨ v = 3 then 1 else 0) := by
  induction l generalizing i with
  | nil => simp at h
  | cons hd tl ih =>
      cases i with
      | zero =>
          simp only [List.getElem?_cons_zero, Option.some.injEq] at h
          cases h
          simp [List.set, inflight]
          omega
      | succ j =>
          simp only [List.getElem?_cons_succ] at h
          have := ih j h
          simp [List.set, inflight]
          omega

lemma inflight_pos (l : List Nat) (i pc : Nat) (h : l[i]? = some pc)
    (hpc : pc = 2 ∨ pc = 3) : 0 < inflight l := by
  induction l generalizing i with
  | nil => simp at h
  | cons hd tl ih =>
      cases i with
      | zero =>
          simp only [List.getElem?_cons_zero, Option.some.injEq] at h
          cases h
          simp [inflight, hpc]
      | succ j =>
          simp only [List.getElem?_cons_succ] at h
          have := ih j h
          simp [inflight]
          omega

lemma inflight_eq_zero_of_done (l : List Nat) (h : ∀ pc ∈ l, pc = 4) :
    inflight l = 0 := by
  induction l with
  | nil => rfl
  | cons hd tl ih =>
      have hhd : hd = 4 := h hd (List.mem_cons_self hd tl)
      have htl : ∀ pc ∈ tl, pc = 4 := fun pc hm => h pc (List.mem_cons_of_mem hd hm)
      simp [inflight, hhd, ih htl]

lemma gateStep_balanced (outcome : Nat → Bool) (c : GateConfig) (t : Tid)
    (h : gateBalanced c) : gateBalanced (gateStep outcome c t) := by
  obtain ⟨cdb, crw, cpcs, cupd⟩ := c
  unfold gateBalanced at h ⊢
  simp only at h
  cases t with
  | upd =>
      rcases cupd with _ | _ | _ | _ | m
      · simpa [gateStep] using h
      · by_cases hrw : crw = 0 <;> simp [gateStep, hrw] <;> omega
      · simpa [gateStep] using h
      · simpa [gateStep] using h
      · simpa [gateStep] using h
  | req i =>
      rcases hget : cpcs[i]? with _ | pc
      · simp [gateStep, hget, h]
      · rcases pc with _ | _ | _ | _ | m
        · by_cases hdb : cdb = 0
          · have hset := inflight_set cpcs i 1 0 hget
            simp at hset
            simp [gateStep, hget, hdb]
            omega
          · simp [gateStep, hget, hdb, h]
        · have hset := inflight_set cpcs i 2 1 hget
          simp at hset
          simp [gateStep, hget]
          omega
        · have hset := inflight_set cpcs i 3 2 hget
          simp at hset
          cases houtcome : outcome i <;> simp [gateStep, hget, houtcome] <;> omega
        · have hset := inflight_set cpcs i 4 3 hget
          have hpos := inflight_pos cpcs i 3 hget (Or.inr rfl)
          simp at hset
          simp [gateStep, hget]
          omega
        · simp [gateStep, hget, h]

lemma gateRun_balanced (outcome : Nat → Bool) (sched : List Tid) (c : GateConfig)
    (h : gateBalanced c) : gateBalanced (gateRun outcome c sched) := by
  induction sched generalizing c with
  | nil => exact h
  | cons t rest ih =>
      exact ih (gateStep outcome c t) (gateStep_balanced outcome c t h)

lemma gateInit_balanced (n : Nat) : gateBalanced (gateInit n) := by
  unfold gateBalanced gateInit
  induction n with
  | zero => rfl
  | succ m ih => simpa [List.replicate, inflight] using ih

/-- Fully successful environment: every external call succeeds and the
downloaded database content is `[9, 9]`. -/
def envAllOk : Env :=
  { tempDirRes := .ok (), needsUpdateRes := .ok true, downloadRes := .ok [9, 9],
    closeRes := .ok (), copyRes := .ok (), updateMetadataRes := .ok (),
    dbInitRes := .ok (), now1 := 5, now2 := 7 }

/-- Starting world: gate idle, live database `[1]` open, gauge constructed
but with no samples yet. -/
def worldStart : World :=
  { dbUpdateWg := 0, liveFile := [1], dbOpen := true, tmpDirs := 0,
    gauge := some { lastDBUpdateAttempt := none, lastDBUpdate := none } }

/-- Claim C1: the spec requires that no request handler body run
concurrently with the file-replace steps. The two-wait-group gate does not
guarantee this: with one request thread, the schedule `raceSched` lets the
request pass `dbUpdateWg.Wait()` while the gate is open, lets the worker
mark the update and pass `requestWg.Wait()` seeing zero in flight, and then
lets the request register and enter its handler body while the worker is
inside the close/copy/reopen steps. -/
theorem admissionGateMutex_refuted : ¬ admissionGateMutex 1 := by
  intro h
  exact h (fun _ => true) raceSched (by decide)

/-- Claim C2: on every execution of `hotUpdate`, whatever the outcomes of
the external calls, the `dbUpdateWg` counter is restored to its initial
value and the trace carries exactly as many `gateDone` effects as
`gateAdd` effects — the deferred `dbUpdateWg.Done()` runs on every exit
path that follows `dbUpdateWg.Add(1)`. -/
theorem hotUpdate_gate_release (env : Env) (w : World) :
    (hotUpdate env w).world.dbUpdateWg = w.dbUpdateWg
    ∧ (hotUpdate env w).trace.count Event.gateAdd
        = (hotUpdate env w).trace.count Event.gateDone := by
  obtain ⟨td, nu, dl, cl, cp, um, di, n1, n2⟩ := env
  rcases td with e1 | u1 <;> rcases dl with e2 | staged <;>
    rcases cl with e3 | u3 <;> rcases cp with e4 | u4 <;>
    rcases um with e5 | u5 <;> rcases di with e6 | u6 <;>
    refine ⟨?_, ?_⟩ <;>
    simp [hotUpdate, copyFileReplace]

/-- Claim C3: with the download succeeded, a fully successful `hotUpdate`
performs, in order, gate marking, drain wait, close, file replace, metadata
write and reopen, and leaves the live file equal to the staged content;
moreover on every outcome the live file is either exactly the staged
content or exactly the previous content — never a partial state. -/
theorem hotUpdate_swap_order_and_atomic (env : Env) (w : World) (d : List Nat)
    (hd : env.downloadRes = .ok d) :
    ((hotUpdate env w).res = .ok () →
        (hotUpdate env w).trace
          = [.createTempDir, .download, .gateAdd, .waitDrain, .dbClose, .copyFile,
             .updateMetadata, .dbInit, .gateDone, .removeTempDir]
        ∧ (hotUpdate env w).world.liveFile = d)
    ∧ ((hotUpdate env w).world.liveFile = d
        ∨ (hotUpdate env w).world.liveFile = w.liveFile) := by
  obtain ⟨td, nu, dl, cl, cp, um, di, n1, n2⟩ := env
  simp only at hd
  subst hd
  rcases td with e1 | u1 <;> rcases cl with e3 | u3 <;> rcases cp with e4 | u4 <;>
    rcases um with e5 | u5 <;> rcases di with e6 | u6 <;>
    simp [hotUpdate, copyFileReplace]

/-- Claim C3 witness: a fully successful cycle from the starting world has
the expected trace and installs the staged content. -/
theorem hotUpdate_swap_order_and_atomic_witness :
    (hotUpdate envAllOk worldStart).res = .ok ()
    ∧ (hotUpdate envAllOk worldStart).trace
        = [.createTempDir, .download, .gateAdd, .waitDrain, .dbClose, .copyFile,
           .updateMetadata, .dbInit, .gateDone, .removeTempDir]
    ∧ (hotUpdate envAllOk worldStart).world.liveFile = [9, 9] :=
  ⟨rfl, (hotUpdate_swap_order_and_atomic envAllOk worldStart [9, 9] rfl).1 rfl⟩

/-- Claim C4: when the gauge is constructed, an update is needed, the
staging directory is created and the download fails, the cycle returns the
error "failed DB hot update", the live file and both the gate counter and
the staging-directory count are unchanged, the gate is never marked, and
the attempt sample has already been recorded with the cycle's timestamp. -/
theorem update_download_failure (env : Env) (w : World) (g : GaugeState) (e : String)
    (hg : w.gauge = some g) (hnu : env.needsUpdateRes = .ok true)
    (htd : env.tempDirRes = .ok ()) (hdl : env.downloadRes = .error e) :
    (update env w).res = .error "failed DB hot update"
    ∧ (update env w).world.liveFile = w.liveFile
    ∧ (update env w).world.dbUpdateWg = w.dbUpdateWg
    ∧ (update env w).world.tmpDirs = w.tmpDirs
    ∧ Event.gateAdd ∉ (update env w).trace
    ∧ (update env w).world.gauge = some { g with lastDBUpdateAttempt := some env.now1 } := by
  obtain ⟨td, nu, dl, cl, cp, um, di, n1, n2⟩ := env
  simp only at hnu htd hdl
  subst hnu; subst htd; subst hdl
  simp [update, hotUpdate, updateLastDBUpdatePrometheus, hg]

/-- Claim C4 witness: concrete failing download against the starting
world. -/
theorem update_download_failure_witness :
    (update { envAllOk with downloadRes := .error "boom" } worldStart).res
        = .error "failed DB hot update"
    ∧ (update { envAllOk with downloadRes := .error "boom" } worldStart).world.liveFile
        = worldStart.liveFile
    ∧ (update { envAllOk with downloadRes := .error "boom" } worldStart).world.dbUpdateWg
        = worldStart.dbUpdateWg
    ∧ (update { envAllOk with downloadRes := .error "boom" } worldStart).world.tmpDirs
        = worldStart.tmpDirs
    ∧ Event.gateAdd ∉ (update { envAllOk with downloadRes := .error "boom" } worldStart).trace
    ∧ (update { envAllOk with downloadRes := .error "boom" } worldStart).world.gauge
        = some { lastDBUpdateAttempt := some 5, lastDBUpdate := none } :=
  update_download_failure { envAllOk with downloadRes := .error "boom" } worldStart
    { lastDBUpdateAttempt := none, lastDBUpdate := none } "boom" rfl rfl rfl rfl

/-- Claim C5: with a constructed gauge, every cycle's very first effect is
recording the attempt sample with the first clock read — before
`NeedsUpdate` is consulted — and whatever the later outcomes, the final
gauge still carries that attempt timestamp. -/
theorem update_attempt_metric_first (env : Env) (w : World) (g : GaugeState)
    (hg : w.gauge = some g) :
    (update env w).trace.head? = some (.recordAttempt env.now1)
    ∧ ∃ g2, (update env w).world.gauge = some g2
        ∧ g2.lastDBUpdateAttempt = some env.now1 := by
  obtain ⟨td, nu, dl, cl, cp, um, di, n1, n2⟩ := env
  rcases nu with e2 | b
  · simp [update, updateLastDBUpdatePrometheus, hg]
  · rcases b with _ | _
    · simp [update, updateLastDBUpdatePrometheus, hg]
    · rcases td with e1 | u1 <;> rcases dl with e2 | staged <;>
        rcases cl with e3 | u3 <;> rcases cp with e4 | u4 <;>
        rcases um with e5 | u5 <;> rcases di with e6 | u6 <;>
        simp [update, hotUpdate, copyFileReplace, updateLastDBUpdatePrometheus, hg]

/-- Claim C5 witness: the successful concrete cycle records attempt
timestamp 5 first. -/
theorem update_attempt_metric_first_witness :
    (update envAllOk worldStart).trace.head? = some (.recordAttempt 5)
    ∧ ∃ g2, (update envAllOk worldStart).world.gauge = some g2
        ∧ g2.lastDBUpdateAttempt = some 5 :=
  update_attempt_metric_first envAllOk worldStart
    { lastDBUpdateAttempt := none, lastDBUpdate := none } rfl

/-- Claim C6: recording a sample against a nil gauge returns the explicit
error "Prometheus gauge found to be nil" (for either label, at any
timestamp) rather than silently doing nothing, and a cycle run with a nil
gauge surfaces exactly that error to its caller. -/
theorem updateLastDBUpdatePrometheus_nil_error (t : Int) (b : Bool) (env : Env)
    (w : World) (hw : w.gauge = none) :
    updateLastDBUpdatePrometheus none t b = .error "Prometheus gauge found to be nil"
    ∧ (update env w).res = .error "Prometheus gauge found to be nil" := by
  constructor
  · rfl
  · simp [update, updateLastDBUpdatePrometheus, hw]

/-- Claim C6 witness: both conjuncts at a concrete timestamp, label and
world. -/
theorem updateLastDBUpdatePrometheus_nil_error_witness :
    updateLastDBUpdatePrometheus none 5 true = .error "Prometheus gauge found to be nil"
    ∧ (update envAllOk { worldStart with gauge := none }).res
        = .error "Prometheus gauge found to be nil" :=
  updateLastDBUpdatePrometheus_nil_error 5 true envAllOk
    { worldStart with gauge := none } rfl

/-- Claim C7: with a constructed gauge, a fully successful cycle ends with
both the attempt sample (first clock read) and the success sample (second
clock read) set; a cycle whose `NeedsUpdate` answer is `false` returns
success, performs no download, never marks the gate, and changes nothing
but the attempt sample. -/
theorem update_metric_outcomes (envS envN : Env) (w : World) (g : GaugeState)
    (hg : w.gauge = some g)
    (hS : envS.needsUpdateRes = .ok true)
    (hSok : (update envS w).res = .ok ())
    (hN : envN.needsUpdateRes = .ok false) :
    (∃ g2, (update envS w).world.gauge = some g2
        ∧ g2.lastDBUpdateAttempt = some envS.now1
        ∧ g2.lastDBUpdate = some envS.now2)
    ∧ (update envN w).res = .ok ()
    ∧ Event.download ∉ (update envN w).trace
    ∧ Event.gateAdd ∉ (update envN w).trace
    ∧ (update envN w).world
        = { w with gauge := some { g with lastDBUpdateAttempt := some envN.now1 } } := by
  refine ⟨?_, ?_⟩
  · obtain ⟨td, nu, dl, cl, cp, um, di, n1, n2⟩ := envS
    simp only at hS hSok
    subst hS
    rcases td with e1 | u1 <;> rcases dl with e2 | staged <;>
      rcases cl with e3 | u3 <;> rcases cp with e4 | u4 <;>
      rcases um with e5 | u5 <;> rcases di with e6 | u6 <;>
      simp [update, hotUpdate, copyFileReplace, updateLastDBUpdatePrometheus, hg] at hSok ⊢
  · obtain ⟨td, nu, dl, cl, cp, um, di, n1, n2⟩ := envN
    simp only at hN
    subst hN
    simp [update, updateLastDBUpdatePrometheus, hg]

/-- Claim C7 witness: a concrete successful cycle and a concrete
no-update-needed cycle from the starting world. -/
theorem update_metric_outcomes_witness :
    (∃ g2, (update envAllOk worldStart).world.gauge = some g2
        ∧ g2.lastDBUpdateAttempt = some 5
        ∧ g2.lastDBUpdate = some 7)
    ∧ (update { envAllOk with needsUpdateRes := .ok false } worldStart).res = .ok ()
    ∧ Event.download
        ∉ (update { envAllOk with needsUpdateRes := .ok false } worldStart).trace
    ∧ Event.gateAdd
        ∉ (update { envAllOk with needsUpdateRes := .ok false } worldStart).trace
    ∧ (update { envAllOk with needsUpdateRes := .ok false } worldStart).world
        = { worldStart with
              gauge := some { lastDBUpdateAttempt := some 5, lastDBUpdate := none } } :=
  update_metric_outcomes envAllOk { envAllOk with needsUpdateRes := .ok false }
    worldStart { lastDBUpdateAttempt := none, lastDBUpdate := none } rfl rfl rfl rfl

/-- Claim C8: the wrapper's in-flight accounting is balanced on every
interleaving — the `requestWg` counter always equals the number of requests
between `Add` and `Done` — so once every request of a finite burst has
finished (all program counters at 4), the in-flight count is back to zero,
for any mix of handler outcomes. -/
theorem withWaitGroup_request_accounting (outcome : Nat → Bool) (n : Nat)
    (sched : List Tid)
    (hdone : ∀ pc ∈ (gateRun outcome (gateInit n) sched).reqPCs, pc = 4) :
    (gateRun outcome (gateInit n) sched).requestWg = 0 := by
  have hb := gateRun_balanced outcome sched (gateInit n) (gateInit_balanced n)
  unfold gateBalanced at hb
  rw [hb]
  exact inflight_eq_zero_of_done _ hdone

/-- Mixed handler outcomes for the witness burst: requests 0 and 2 succeed,
request 1 fails. -/
def burstOutcome : Nat → Bool := fun i => i % 2 = 0

/-- An interleaved schedule that drives three requests to completion. -/
def burstSched : List Tid :=
  [.req 0, .req 1, .req 2, .req 1, .req 0, .req 2, .req 2, .req 0,
   .req 1, .req 1, .req 0, .req 2]

/-- Claim C8 witness: after the concrete mixed burst every request has
finished and the in-flight count is zero. -/
theorem withWaitGroup_request_accounting_witness :
    (∀ pc ∈ (gateRun burstOutcome (gateInit 3) burstSched).reqPCs, pc = 4)
    ∧ (gateRun burstOutcome (gateInit 3) burstSched).requestWg = 0 :=
  ⟨by decide, withWaitGroup_request_accounting burstOutcome 3 burstSched (by decide)⟩

/-- Claim C9: with a constructed gauge, a cycle whose `NeedsUpdate` call
fails returns exactly the error "failed to check if db needs an update",
its trace stops at the check (no download, no gate marking, no swap step),
and the world is unchanged except for the recorded attempt sample. -/
theorem update_needs_update_check_failure (env : Env) (w : World) (g : GaugeState)
    (e : String) (hg : w.gauge = some g) (hnu : env.needsUpdateRes = .error e) :
    (update env w).res = .error "failed to check if db needs an update"
    ∧ (update env w).trace = [.recordAttempt env.now1, .needsUpdateCheck]
    ∧ (update env w).world
        = { w with gauge := some { g with lastDBUpdateAttempt := some env.now1 } } := by
  obtain ⟨td, nu, dl, cl, cp, um, di, n1, n2⟩ := env
  simp only at hnu
  subst hnu
  simp [update, updateLastDBUpdatePrometheus, hg]

/-- Claim C9 witness: concrete failing `NeedsUpdate` call. -/
theorem update_needs_update_check_failure_witness :
    (update { envAllOk with needsUpdateRes := .error "eof" } worldStart).res
        = .error "failed to check if db needs an update"
    ∧ (update { envAllOk with needsUpdateRes := .error "eof" } worldStart).trace
        = [.recordAttempt 5, .needsUpdateCheck]
    ∧ (update { envAllOk with needsUpdateRes := .error "eof" } worldStart).world
        = { worldStart with
              gauge := some { lastDBUpdateAttempt := some 5, lastDBUpdate := none } } :=
  update_needs_update_check_failure { envAllOk with needsUpdateRes := .error "eof" }
    worldStart { lastDBUpdateAttempt := none, lastDBUpdate := none } "eof" rfl rfl

/-- Claim C10: a cycle run with a nil gauge fails at its very first step
with the gauge error: the trace is empty — in particular `NeedsUpdate` is
never consulted and no download or swap effect occurs — and the world is
completely unchanged, so no database update can happen while the metrics
path is broken. -/
theorem update_nil_gauge_blocks (env : Env) (w : World) (hw : w.gauge = none) :
    (update env w).res = .error "Prometheus gauge found to be nil"
    ∧ (update env w).trace = []
    ∧ (update env w).world = w := by
  simp [update, updateLastDBUpdatePrometheus, hw]

/-- Claim C10 witness: concrete nil-gauge cycle with every external call
able to succeed, still blocked at the first step. -/
theorem update_nil_gauge_blocks_witness :
    (update envAllOk { worldStart with gauge := none }).res
        = .error "Prometheus gauge found to be nil"
    ∧ (update envAllOk { worldStart with gauge := none }).trace = []
    ∧ (update envAllOk { worldStart with gauge := none }).world
        = { worldStart with gauge := none } :=
  update_nil_gauge_blocks envAllOk { worldStart with gauge := none } rfl
